import Mathlib

/-!
Verification of the tutorial scripts of py-research-workflows:
data_management_in_python.py and additional_research_tools.py.

The scripts are linear walkthroughs over small in-memory datasets.  We embed
the repository-owned pure functions (sort_ratios, _latex_text_wrapper,
to_latex, replace_fixed_effects_cols), the inline example data, and the
file-effect trace of each script (writes, reads, removals, opaque library
calls, object-cache stores), and prove the specification claims about them.
-/

/-- Scalar values appearing in the example pandas data: Python None, float
NaN, strings, floats (modelled exactly as rationals) and ints. -/
inductive PyVal where
  | none
  | nan
  | str (s : String)
  | float (q : Rat)
  | int (n : Int)
deriving DecidableEq, Repr

/-- pd.isnull: true precisely on None and NaN. -/
def pd_isnull : PyVal → Bool
  | .none => true
  | .nan => true
  | _ => false

/-- isinstance(value, np.float): np.float is an alias of the builtin float,
so this is true exactly on float values; NaN is itself a float. -/
def isinstance_npfloat : PyVal → Bool
  | .float _ => true
  | .nan => true
  | _ => false

/-- Python == between scalars: numeric cross-type comparison, NaN unequal to
everything, no exception ever raised. -/
def pyEq : PyVal → PyVal → Bool
  | .nan, _ => false
  | _, .nan => false
  | .float a, .float b => a == b
  | .float a, .int b => a == (b : Rat)
  | .int a, .float b => (a : Rat) == b
  | .int a, .int b => a == b
  | .str a, .str b => a == b
  | .none, .none => true
  | _, _ => false

/-- Python < between scalars: numeric comparisons succeed (NaN compares
false), strings compare to strings, everything else raises TypeError,
modelled as Option.none. -/
def pyLt : PyVal → PyVal → Option Bool
  | .float a, .float b => some (decide (a < b))
  | .float a, .int b => some (decide (a < (b : Rat)))
  | .int a, .float b => some (decide ((a : Rat) < b))
  | .int a, .int b => some (decide (a < b))
  | .nan, .float _ => some false
  | .nan, .int _ => some false
  | .float _, .nan => some false
  | .int _, .nan => some false
  | .nan, .nan => some false
  | .str a, .str b => some (decide (a < b))
  | _, _ => Option.none

/-- Python >= between scalars, with the same failure behaviour as pyLt. -/
def pyGe : PyVal → PyVal → Option Bool
  | .float a, .float b => some (decide (b ≤ a))
  | .float a, .int b => some (decide ((b : Rat) ≤ a))
  | .int a, .float b => some (decide (b ≤ (a : Rat)))
  | .int a, .int b => some (decide (b ≤ a))
  | .nan, .float _ => some false
  | .nan, .int _ => some false
  | .float _, .nan => some false
  | .int _, .nan => some false
  | .nan, .nan => some false
  | .str a, .str b => some (decide (b ≤ a))
  | _, _ => Option.none

/-- sort_ratios from data_management_in_python.py lines 177-190: return the
value as is when it is missing or not a float, otherwise classify it against
1 with the exact branch order of the source; a raised TypeError is
Option.none, and falling off the end of the Python function returns None. -/
def sort_ratios (value : PyVal) : Option PyVal :=
  bif pd_isnull value || !isinstance_npfloat value then some value
  else
    bif pyEq value (.int 1) then some (.str "Even")
    else
      (pyLt value (.int 1)).bind fun lt =>
        bif lt then some (.str "Low")
        else
          (pyGe value (.int 1)).bind fun ge =>
            bif ge then some (.str "High")
            else some .none

/-- The begin_text raw string of _latex_text_wrapper, data_management lines
525-532, character for character. -/
def begin_text : String :=
  "\n    \\documentclass[12pt]{article}\n\\usepackage{booktabs}\n\\begin{document}\n\n\\begin{table}\n\n    "

/-- The end_text raw string of _latex_text_wrapper, data_management lines
534-538, character for character. -/
def end_text : String :=
  "\n    \n    \\end{table}\n\\end{document}\n    "

/-- _latex_text_wrapper from data_management lines 524-540: concatenate the
fixed preamble, the given text, and the fixed closing text. -/
def _latex_text_wrapper (text : String) : String :=
  begin_text ++ text ++ end_text

/-- to_latex from data_management lines 542-548: render the DataFrame to its
LaTeX string (a library call, taken here as the input), wrap it, and write
the wrapped string to filepath; the result is the written file as a
name-content pair. -/
def to_latex (df_rendered_latex : String) (filepath : String := "temp.tex") :
    String × String :=
  (filepath, _latex_text_wrapper df_rendered_latex)

/-- A regression summary table as produced by summary_col: ordered column
names and ordered rows, each row carrying its index label and its cell
values. -/
structure SummTable where
  columns : List String
  rows : List (String × List String)
deriving DecidableEq, Repr

/-- Pandas row assignment out_df.loc[label] = vals: the tuple length must
match the number of columns (else a raised error, Option.none); if the label
already exists the matching rows are overwritten in place, otherwise a new
row is appended at the end. -/
def loc_assign (df : SummTable) (label : String) (vals : List String) :
    Option SummTable :=
  if vals.length = df.columns.length then
    some { df with rows :=
      if df.rows.any (fun r => r.1 == label) then
        df.rows.map (fun r => if r.1 == label then (label, vals) else r)
      else
        df.rows ++ [(label, vals)] }
  else
    Option.none

/-- replace_fixed_effects_cols from data_management lines 498-504: drop the
first four rows (df.iloc[4:]) and assign the row labeled Ratio Size Fixed
Effects with the tuple of No, Yes, No. -/
def replace_fixed_effects_cols (df : SummTable) : Option SummTable :=
  let out_df : SummTable := { df with rows := df.rows.drop 4 }
  loc_assign out_df "Ratio Size Fixed Effects" ["No", "Yes", "No"]

/-- A five-row three-column table whose fifth row already carries the label
Ratio Size Fixed Effects. -/
def collisionTable : SummTable :=
  { columns := ["(I)", "(II)", "(III)"],
    rows := [("Unemployment", ["0.1", "0.2", "0.3"]),
             ("R2", ["0.5", "0.6", "0.7"]),
             ("N", ["9", "9", "9"]),
             ("Const", ["1", "2", "3"]),
             ("Ratio Size Fixed Effects", ["kept", "kept", "kept"])] }

/-- An in-memory pandas DataFrame: ordered column names and rows of cell
values (the default integer index is implicit row order). -/
structure DataFrame where
  columns : List String
  rows : List (List PyVal)
deriving DecidableEq, Repr

/-- Position of a column name, Option.none when the column is missing. -/
def colIdx (df : DataFrame) (c : String) : Option Nat :=
  df.columns.findIdx? (fun c2 => c2 == c)

/-- Cell of a row at a column position. -/
def cellAt (row : List PyVal) (i : Nat) : PyVal :=
  row.getD i .none

/-- Values of one column, top to bottom. -/
def colVals (df : DataFrame) (c : String) : Option (List PyVal) :=
  (colIdx df c).map fun i => df.rows.map (fun r => cellAt r i)

/-- Column assignment df[c] = vals: overwrite an existing column or append a
new one on the right. -/
def setCol (df : DataFrame) (c : String) (vals : List PyVal) : DataFrame :=
  match colIdx df c with
  | some i => { df with rows := df.rows.zipWith (fun r v => r.set i v) vals }
  | Option.none =>
    { columns := df.columns ++ [c],
      rows := df.rows.zipWith (fun r v => r ++ [v]) vals }

/-- Values counted as numeric by pandas dtype inference. -/
def isNumericVal : PyVal → Bool
  | .float _ => true
  | .int _ => true
  | .nan => true
  | _ => false

def toRatVal : PyVal → Option Rat
  | .float q => some q
  | .int n => some (n : Rat)
  | _ => Option.none

/-- Addition of exact rationals, kept in normalized mkRat form so that
results evaluate inside the kernel. -/
def ratAdd (a b : Rat) : Rat :=
  mkRat (a.num * b.den + b.num * a.den) (a.den * b.den)

/-- Division of exact rationals in normalized mkRat form; division by zero
is never reached through pyDiv, which guards the denominator. -/
def ratDiv (a b : Rat) : Rat :=
  if b.num < 0 then mkRat (-(a.num * (b.den : Int))) (a.den * b.num.natAbs)
  else mkRat (a.num * (b.den : Int)) (a.den * b.num.natAbs)

/-- Mean of a column slice with pandas default skipna: NaN entries are
skipped, an all-missing slice yields NaN. -/
def mean_skipna (vs : List PyVal) : PyVal :=
  let ns := vs.filterMap toRatVal
  if ns.length = 0 then .nan
  else .float (ratDiv (ns.foldl ratAdd 0) ((ns.length : Nat) : Rat))

/-- Key tuple of a row under the given key column positions. -/
def keyTuple (idxs : List Nat) (row : List PyVal) : List PyVal :=
  idxs.map (fun i => cellAt row i)

/-- df.groupby(keys).transform(mean), data_management line 159: every row
receives the group mean of each remaining numeric column; non-numeric
nuisance columns are silently dropped, and a DataError is raised
(Option.none) when no numeric column remains. -/
def groupby_transform_mean (df : DataFrame) (keys : List String) :
    Option DataFrame :=
  (keys.mapM (colIdx df)).bind fun keyIdxs =>
    let valueCols := (df.columns.enum).filter (fun p => !(keys.contains p.2))
    let numCols := valueCols.filter
      (fun p => df.rows.all (fun r => isNumericVal (cellAt r p.1)))
    if numCols.length = 0 then Option.none
    else some
      { columns := numCols.map (fun p => p.2),
        rows := df.rows.map (fun r =>
          let k := keyTuple keyIdxs r
          let grp := df.rows.filter (fun r2 => keyTuple keyIdxs r2 == k)
          numCols.map (fun p => mean_skipna (grp.map (fun r2 => cellAt r2 p.1)))) }

/-- df[c] = other where other is the DataFrame returned by a transform:
succeeds when the right side has exactly one column (as at line 159). -/
def assign_df_col (df : DataFrame) (c : String) (other : DataFrame) :
    Option DataFrame :=
  if other.columns.length = 1 then
    some (setCol df c (other.rows.map (fun r => cellAt r 0)))
  else
    Option.none

/-- Python / on scalars as used between the two float columns at line 167;
NaN propagates, a zero denominator or non-numeric operand fails. -/
def pyDiv : PyVal → PyVal → Option PyVal
  | .nan, .float _ => some .nan
  | .nan, .int _ => some .nan
  | .float _, .nan => some .nan
  | .int _, .nan => some .nan
  | .nan, .nan => some .nan
  | .float a, .float b => if b = 0 then Option.none else some (.float (ratDiv a b))
  | .float a, .int b => if b = 0 then Option.none else some (.float (ratDiv a (b : Rat)))
  | .int a, .float b => if b = 0 then Option.none else some (.float (ratDiv (a : Rat) b))
  | .int a, .int b =>
    if b = 0 then Option.none else some (.float (ratDiv (a : Rat) (b : Rat)))
  | _, _ => Option.none

/-- df[target] = df[num] / df[den], data_management line 167. -/
def assign_div_col (df : DataFrame) (target num den : String) : Option DataFrame :=
  (colVals df num).bind fun ns =>
    (colVals df den).bind fun ds =>
      ((List.zip ns ds).mapM (fun p => pyDiv p.1 p.2)).map fun vals =>
        setCol df target vals

/-- df[tgt] = df[src].apply(f), data_management line 192. -/
def apply_col (df : DataFrame) (src tgt : String) (f : PyVal → Option PyVal) :
    Option DataFrame :=
  (colVals df src).bind fun vs =>
    (vs.mapM f).map fun vals => setCol df tgt vals

/-- df.applymap(f), data_management line 195: apply f to every cell. -/
def applymap (f : PyVal → Option PyVal) (df : DataFrame) : Option DataFrame :=
  (df.rows.mapM (fun (r : List PyVal) => r.mapM f)).map fun rs =>
    { df with rows := rs }

/-- Value of a row at a named column, NaN when the column is absent (as when
pandas aligns frames with differing columns). -/
def rowVal (cols : List String) (row : List PyVal) (c : String) : PyVal :=
  match cols.findIdx? (fun c2 => c2 == c) with
  | some i => cellAt row i
  | Option.none => .nan

/-- df.merge(other, how=left, on=key), data_management line 221: every left
row keeps its cells and gains the non-key cells of the first matching right
row, or NaN cells when no right row matches. -/
def merge_left (df other : DataFrame) (key : String) : Option DataFrame :=
  (colIdx df key).bind fun i =>
    (colIdx other key).bind fun j =>
      let newCols := other.columns.filter (fun c => !(c == key))
      some
        { columns := df.columns ++ newCols,
          rows := df.rows.map (fun r =>
            match other.rows.find? (fun r2 => cellAt r2 j == cellAt r i) with
            | some r2 => r ++ newCols.map (rowVal other.columns r2)
            | Option.none => r ++ newCols.map (fun _ => .nan)) }

/-- df.drop(c, axis=1): raised KeyError (Option.none) when the column is
missing. -/
def drop_col (df : DataFrame) (c : String) : Option DataFrame :=
  (colIdx df c).map fun i =>
    { columns := df.columns.eraseIdx i,
      rows := df.rows.map (fun r => r.eraseIdx i) }

/-- df.append(other), data_management line 233: rows of df followed by rows
of other over the union of the columns, missing cells filled with NaN. -/
def df_append (df other : DataFrame) : DataFrame :=
  let newCols := df.columns ++ other.columns.filter (fun c => !(df.columns.contains c))
  { columns := newCols,
    rows := df.rows.map (fun r => newCols.map (rowVal df.columns r)) ++
      other.rows.map (fun r => newCols.map (rowVal other.columns r)) }

/-- The example DataFrame of data_management lines 65-78. -/
def df0 : DataFrame :=
  { columns := ["Company", "State", "Date", "Return"],
    rows := [
      [.str "Walmart", .str "FL", .str "1/2/2000", .float (mkRat 2 100)],
      [.str "Walmart", .str "FL", .str "1/3/2000", .float (mkRat 3 100)],
      [.str "Walmart", .str "FL", .str "1/4/2000", .float (mkRat 4 100)],
      [.str "Trader Joes", .str "GA", .str "1/2/2000", .float (mkRat 6 100)],
      [.str "Trader Joes", .str "GA", .str "1/3/2000", .float (mkRat 7 100)],
      [.str "Trader Joes", .str "GA", .str "1/4/2000", .float (mkRat 8 100)],
      [.str "Publix", .str "FL", .str "1/2/2000", .float (mkRat 10 100)],
      [.str "Publix", .str "FL", .str "1/3/2000", .float (mkRat 11 100)],
      [.str "Publix", .str "FL", .str "1/4/2000", .float (mkRat 12 100)]] }

/-- The employment DataFrame of data_management lines 211-218. -/
def employment_df : DataFrame :=
  { columns := ["State", "Unemployment"],
    rows := [
      [.str "FL", .float (mkRat 6 100)],
      [.str "GA", .float (mkRat 8 100)],
      [.str "PA", .float (mkRat 7 100)]] }

/-- Line 159: the groupby-transform over the mixed-type DataFrame. -/
def transform_159 : Option DataFrame :=
  groupby_transform_mean df0 ["State", "Date"]

/-- Line 159: assignment of the transform result as State Return Average. -/
def df_159 : Option DataFrame :=
  transform_159.bind (assign_df_col df0 "State Return Average")

/-- Line 167: the Ratio column. -/
def df_167 : Option DataFrame :=
  df_159.bind (fun d => assign_div_col d "Ratio" "Return" "State Return Average")

/-- Line 192: the Ratio Size column via sort_ratios. -/
def df_192 : Option DataFrame :=
  df_167.bind (fun d => apply_col d "Ratio" "Ratio Size" sort_ratios)

/-- Line 195: sort_ratios applied to every value of the DataFrame. -/
def applymap_195 : Option DataFrame :=
  df_192.bind (applymap sort_ratios)

/-- Line 221: the left merge with the employment DataFrame. -/
def df_221 : Option DataFrame :=
  df_192.bind (fun d => merge_left d employment_df "State")

/-- Lines 230-232: copy_df with the Extra Column added and Ratio Size
dropped. -/
def copy_df_232 : Option DataFrame :=
  (df_221.map (fun d => setCol d "Extra Column" (d.rows.map fun _ => .int 5))).bind
    (fun d => drop_col d "Ratio Size")

/-- Line 233: df.append(copy_df). -/
def append_233 : Option DataFrame :=
  df_221.bind (fun d => copy_df_232.map (fun c => df_append d c))

/-- State of a script run: the files present in the working directory and
the contents of object caches, each entry recording backing file, key tuple
and stored value. -/
structure PState where
  files : List String
  cache : List (String × List String × Int)
deriving DecidableEq, Repr

/-- Membership of a file name in the directory listing. -/
def memb (n : String) : List String → Bool
  | [] => false
  | m :: r => if n = m then true else memb n r

/-- Effect of writing a file: creates it or overwrites it in place. -/
def ins (n : String) (l : List String) : List String :=
  if memb n l = true then l else n :: l

/-- Effect of os.remove on the directory listing. -/
def rm (n : String) : List String → List String
  | [] => []
  | m :: r => if m = n then r else m :: rm n r

/-- One top-level statement of a script, as it affects the world: an opaque
library call (which the underlying library may abort with an exception, as
decided by the oracle), a file write, a read of an existing file, an object
cache store with its backing files, or os.remove. -/
inductive Op where
  | call (id : Nat)
  | write (name : String)
  | read (name : String)
  | store (path : String) (key : List String) (v : Int)
  | remove (name : String)
deriving DecidableEq, Repr

/-- The four backing files kept by the object cache for a given path, as
listed by the script itself in its cleanup section. -/
def zodbFiles (path : String) : List String :=
  [path, path ++ ".index", path ++ ".lock", path ++ ".tmp"]

/-- Effect of one statement: Option.none is an uncaught Python exception.
Reads and removals of absent files raise; writes always succeed; a store
creates the backing files and records the value; a call raises exactly when
the oracle says the wrapped library raises. -/
def stepOp (raises : Nat → Bool) : Op → PState → Option PState
  | .call i, s => bif raises i then Option.none else some s
  | .write n, s => some { s with files := ins n s.files }
  | .read n, s => bif memb n s.files then some s else Option.none
  | .store path key v, s =>
    some { files := (zodbFiles path).foldl (fun l n => ins n l) s.files,
           cache := (path, key, v) :: s.cache }
  | .remove n, s =>
    bif memb n s.files then some { s with files := rm n s.files } else Option.none

/-- Sequential execution of a script: statements run top to bottom, and the
first uncaught exception stops the run with the state reached so far and a
false success flag. -/
def runOps (raises : Nat → Bool) : List Op → PState → PState × Bool
  | [], s => (s, true)
  | op :: rest, s =>
    match stepOp raises op s with
    | some s2 => runOps raises rest s2
    | Option.none => (s, false)

/-- The oracle of a run in which no library call raises. -/
def no_raise : Nat → Bool := fun _ => false

/-- Names of every file a list of statements writes, in order. -/
def writtenNames : List Op → List String
  | [] => []
  | .write n :: r => n :: writtenNames r
  | .store p _ _ :: r => zodbFiles p ++ writtenNames r
  | _ :: r => writtenNames r

/-- First cache entry for a backing path and key tuple. -/
def lookupCache : List (String × List String × Int) → String → List String → Option Int
  | [], _, _ => Option.none
  | (p, k, v) :: rest, path, key =>
    if p = path ∧ k = key then some v else lookupCache rest path key

/-- ObjectCache(path, key).get(): a value is retrievable only while its
backing file exists. -/
def cacheGet (s : PState) (path : String) (key : List String) : Option Int :=
  bif memb path s.files then lookupCache s.cache path key else Option.none

/-- The clean_files list of data_management lines 587-592. -/
def clean_files : List String :=
  ["temp.csv", "temp.xlsx", "temp.dta", "temp.tex"]

/-- Top-level statements of data_management_in_python.py before its cleanup
section, in source order; library calls that touch no file are numbered
opaque calls, with the file writes of lines 548 and 563-565 and the reads of
lines 568-572 made explicit. -/
def dmBody : List Op := [
  .call 0,             -- line 65: pd.DataFrame construction
  .call 1,             -- line 87: display df
  .call 2,             -- line 107: select rows where State is FL
  .call 3,             -- line 109: iloc row slice
  .call 4,             -- line 111: iloc column slice
  .call 5,             -- line 113: Company column
  .call 6,             -- line 118: loc with isin and Return filter
  .call 7,             -- line 132: bare groupby
  .call 8,             -- line 139: groupby mean
  .call 9,             -- line 147: groupby mean with as_index False
  .call 10,            -- line 159: groupby transform mean, assigned
  .call 11,            -- line 160: display df
  .call 12,            -- line 167: Ratio column assignment
  .call 13,            -- line 168: display df
  .call 14,            -- line 192: apply sort_ratios to Ratio
  .call 15,            -- line 193: display df
  .call 16,            -- line 195: applymap sort_ratios
  .call 17,            -- line 211: employment_df construction
  .call 18,            -- line 219: display employment_df
  .call 19,            -- line 221: left merge
  .call 20,            -- line 222: display df
  .call 21,            -- line 230: df.copy
  .call 22,            -- line 231: Extra Column assignment
  .call 23,            -- line 232: drop Ratio Size on the copy
  .call 24,            -- line 233: df.append(copy_df)
  .call 25,            -- line 240: pd.concat sideways
  .call 26,            -- line 241: display temp_df
  .call 27,            -- line 249: duplicate Unemployment columns
  .call 28,            -- line 271: sort_values
  .call 29,            -- line 272: shift for Lag Return
  .call 30,            -- line 273: display df
  .call 31,            -- line 280: groupby shift for Lag Return
  .call 32,            -- line 281: display df
  .call 33,            -- lines 313-325: intraday_df construction
  .call 34,            -- line 326: intraday_df.head
  .call 35,            -- line 333: set_index Datetime
  .call 36,            -- line 340: resample one day mean
  .call 37,            -- line 349: resample ten minutes bfill
  .call 38,            -- line 373: df.plot
  .call 39,            -- line 382: display df
  .call 40,            -- lines 384-385: to_datetime and groupby plot
  .call 41,            -- line 397: box plot
  .call 42,            -- line 399: kde plot
  .call 43,            -- lines 401-409: market_share_df and pie plot
  .call 44,            -- line 418: seaborn pairplot
  .call 45,            -- lines 441-443: ols fit and summary
  .call 46,            -- line 451: rename Ratio Size to ratio_size
  .call 47,            -- lines 452-454: fixed effects model fit and summary
  .call 48,            -- lines 462-464: interaction model fit and summary
  .call 49,            -- lines 474-481: summary_col
  .call 50,            -- line 482: display summ
  .call 51,            -- line 490: summ.tables
  .call 52,            -- line 506: replace_fixed_effects_cols
  .call 53,            -- line 507: display clean_summ
  .call 54,            -- line 515: clean_summ.to_latex
  .write "temp.tex",   -- line 548: to_latex(clean_summ)
  .write "temp.csv",   -- line 563: df.to_csv
  .write "temp.xlsx",  -- line 564: df.to_excel
  .write "temp.dta",   -- line 565: df.to_stata
  .read "temp.csv",    -- line 568: pd.read_csv
  .read "temp.xlsx",   -- line 570: pd.read_excel
  .read "temp.dta"]    -- line 572: pd.read_stata

/-- data_management_in_python.py: body then the os.remove loop of lines
594-595 over clean_files. -/
def dmScript : List Op :=
  dmBody ++ clean_files.map Op.remove

/-- The first temp_files list of additional_research_tools lines 429-431. -/
def temp_files_pyexlatex : List String :=
  ["My Subfigure.pdf"]

/-- The second temp_files list of additional_research_tools lines 811-816. -/
def temp_files_objcache : List String :=
  ["cache.zodb", "cache.zodb.index", "cache.zodb.lock", "cache.zodb.tmp"]

/-- Statements of the pyexlatex section of additional_research_tools.py,
lines 67-417, with the subfigure PDF write of the Figure call of lines
216-226 explicit. -/
def artPyexlatex : List Op := [
  .call 0,                     -- lines 69-70: Document woo
  .call 1,                     -- line 77: print document
  .call 2,                     -- lines 86-100: object-oriented Document
  .call 3,                     -- lines 107-124: template Model Document
  .call 4,                     -- lines 131-146: combined Document
  .call 5,                     -- lines 153-162: equations Document
  .call 6,                     -- lines 170-177: example DataFrame
  .call 7,                     -- lines 179-180: Table document
  .call 8,                     -- line 188: set_index
  .call 9,                     -- lines 190-205: multi-panel table document
  .call 10,                    -- lines 213-214: df.plot and get_figure
  .write "My Subfigure.pdf",   -- lines 216-226: Figure from plt figures
  .call 11,                    -- line 228: Document with the figure
  .call 12,                    -- lines 236-244: references Document
  .call 13,                    -- lines 252-271: citations Document
  .call 14,                    -- lines 278-324: Document with metadata
  .call 15,                    -- lines 331-345: Presentation
  .call 16,                    -- lines 352-393: full Presentation
  .call 17]                    -- lines 402-417: handouts Presentation

/-- Statements between the two cleanup sections of
additional_research_tools.py, lines 456-799, with the object cache store of
lines 793-794 explicit. -/
def artMiddle : List Op := [
  .call 18,                        -- lines 456-466: regression DataFrame setup
  .call 19,                        -- lines 476-481: regtools.reg and summary
  .call 20,                        -- lines 489-504: reg for each xvar set
  .call 21,                        -- lines 512-524: quantile regressions
  .call 22,                        -- lines 526-539: fama-macbeth regressions
  .call 23,                        -- lines 558-606: df1 df2 df3 setup
  .call 24,                        -- lines 618-622: tradedays date_range
  .call 25,                        -- lines 633-639: left_merge_latest
  .call 26,                        -- lines 649-654: averages
  .call 27,                        -- lines 664-671: portfolio
  .call 28,                        -- lines 683-689: long_to_wide
  .call 29,                        -- lines 700-705: winsorize
  .call 30,                        -- line 715: formatted_corr_df
  .store "cache.zodb" ["a", "b"] 5, -- lines 793-794: ObjectCache store
  .call 31,                        -- line 797: second ObjectCache
  .call 32]                        -- lines 798-799: cache.get and print

/-- additional_research_tools.py up to its final cleanup: the pyexlatex
section, the mid-script os.remove loop of lines 433-434, then the remaining
sections. -/
def artBody : List Op :=
  artPyexlatex ++ temp_files_pyexlatex.map Op.remove ++ artMiddle

/-- additional_research_tools.py: body then the final os.remove loop of
lines 818-819 over the object cache files. -/
def artScript : List Op :=
  artBody ++ temp_files_objcache.map Op.remove

/-- A run started in an empty working directory. -/
def initialState : PState :=
  { files := [], cache := [] }

/-- Kinds of externally observable artifacts; the first three follow the
classification in the specification (tabular interchange exports, a typeset
document source, object-cache files), the fourth covers the rendered
subfigure PDF the pyexlatex Figure call writes. -/
inductive FileKind where
  | tabularExport
  | typesetSource
  | objectCache
  | renderedFigure
deriving DecidableEq, Repr

/-- Modelled from the spec: classification of each written file name into
the artifact kinds named by the specification, by its extension family. -/
def fileKind (n : String) : FileKind :=
  if n = "temp.csv" ∨ n = "temp.xlsx" ∨ n = "temp.dta" then .tabularExport
  else if n = "temp.tex" then .typesetSource
  else if n = "cache.zodb" ∨ n = "cache.zodb.index" ∨ n = "cache.zodb.lock" ∨
    n = "cache.zodb.tmp" then .objectCache
  else .renderedFigure
/-- C7: sort_ratios returns the value unchanged when it is null or not a
float; on a (non-NaN) float it returns Even at exactly 1, Low below 1 and
High above 1, the equality branch shadowing the value >= 1 branch at 1. -/
theorem sort_ratios_spec :
    (∀ v : PyVal, pd_isnull v = true ∨ isinstance_npfloat v = false →
      sort_ratios v = some v) ∧
    (∀ q : Rat, sort_ratios (.float q) =
      some (if q = 1 then .str "Even" else if q < 1 then .str "Low" else .str "High")) := by
  constructor
  · intro v h
    rcases h with h | h
    · cases v <;> simp_all [sort_ratios, pd_isnull]
    · cases v <;> simp_all [sort_ratios, pd_isnull, isinstance_npfloat]
  · intro q
    by_cases h1 : q = 1
    · subst h1
      simp [sort_ratios, pd_isnull, isinstance_npfloat, pyEq]
    · have hq : (q == 1) = false := beq_eq_false_iff_ne.mpr h1
      by_cases h2 : q < 1
      · simp [sort_ratios, pd_isnull, isinstance_npfloat, pyEq, pyLt, hq, h1, h2]
      · have h3 : (1 : Rat) ≤ q := le_of_not_lt h2
        simp [sort_ratios, pd_isnull, isinstance_npfloat, pyEq, pyLt, pyGe, hq, h1, h2, h3]

/-- Witness for sort_ratios_spec at concrete inputs: a string passes through
unchanged, 1 maps to Even (not High), 1/2 to Low and 2 to High. -/
theorem sort_ratios_spec_witness :
    sort_ratios (.str "Walmart") = some (.str "Walmart") ∧
    sort_ratios (.float 1) = some (.str "Even") ∧
    sort_ratios (.float (1/2)) = some (.str "Low") ∧
    sort_ratios (.float 2) = some (.str "High") := by
  refine ⟨sort_ratios_spec.1 (.str "Walmart") (Or.inr rfl), ?_, ?_, ?_⟩
  · have h := sort_ratios_spec.2 1
    rwa [if_pos rfl] at h
  · have h := sort_ratios_spec.2 (1/2)
    rwa [if_neg (by norm_num), if_pos (by norm_num)] at h
  · have h := sort_ratios_spec.2 2
    rwa [if_neg (by norm_num), if_neg (by norm_num)] at h

/-- C8: _latex_text_wrapper is exactly preamble ++ text ++ closing, the text
appears unmodified as a contiguous substring, the fixed parts contain the
documented LaTeX fragments, and to_latex writes exactly the wrapped
rendering to the given filepath. -/
theorem latex_wrapper_spec :
    (∀ text : String, _latex_text_wrapper text = begin_text ++ text ++ end_text) ∧
    (∀ text : String, ∃ pre post,
      (_latex_text_wrapper text).data = pre ++ text.data ++ post) ∧
    (∃ a b, begin_text = a ++ "\\documentclass[12pt]{article}" ++ b) ∧
    (∃ a b, begin_text = a ++ "\\usepackage{booktabs}" ++ b) ∧
    (∃ a b, begin_text = a ++ "\\begin{document}" ++ b) ∧
    (∃ a b, begin_text = a ++ "\\begin{table}" ++ b) ∧
    (∃ a b, end_text = a ++ "\\end{table}" ++ b) ∧
    (∃ a b, end_text = a ++ "\\end{document}" ++ b) ∧
    (∀ rendered filepath,
      to_latex rendered filepath = (filepath, _latex_text_wrapper rendered)) := by
  refine ⟨fun _ => rfl, ?_, ?_, ?_, ?_, ?_, ?_, ?_, fun _ _ => rfl⟩
  · intro text
    exact ⟨begin_text.data, end_text.data, by
      simp [_latex_text_wrapper, String.data_append]⟩
  · exact ⟨"\n    ", "\n\\usepackage{booktabs}\n\\begin{document}\n\n\\begin{table}\n\n    ",
      by decide⟩
  · exact ⟨"\n    \\documentclass[12pt]{article}\n",
      "\n\\begin{document}\n\n\\begin{table}\n\n    ", by decide⟩
  · exact ⟨"\n    \\documentclass[12pt]{article}\n\\usepackage{booktabs}\n",
      "\n\n\\begin{table}\n\n    ", by decide⟩
  · exact ⟨"\n    \\documentclass[12pt]{article}\n\\usepackage{booktabs}\n\\begin{document}\n\n",
      "\n\n    ", by decide⟩
  · exact ⟨"\n    \n    ", "\n\\end{document}\n    ", by decide⟩
  · exact ⟨"\n    \n    \\end{table}\n", "\n    ", by decide⟩

/-- C9 counterexample: on a table at least four rows long and exactly three
columns wide whose fifth row is already labeled Ratio Size Fixed Effects,
the loc assignment overwrites that row in place, so the result is not the
kept rows followed by an appended labeled row as the claim states. -/
theorem replace_fixed_effects_cols_label_collision :
    replace_fixed_effects_cols collisionTable =
      some { columns := collisionTable.columns,
             rows := [("Ratio Size Fixed Effects", ["No", "Yes", "No"])] } ∧
    replace_fixed_effects_cols collisionTable ≠
      some { columns := collisionTable.columns,
             rows := collisionTable.rows.drop 4 ++
               [("Ratio Size Fixed Effects", ["No", "Yes", "No"])] } := by
  constructor
  · decide
  · decide

/-- C9 amended: for every table with at least four rows and exactly three
columns, none of whose rows from the fifth onward is already labeled Ratio
Size Fixed Effects, the result keeps the rows from the fifth onward, appends
one row labeled Ratio Size Fixed Effects with values No, Yes, No, and leaves
the columns unchanged. -/
theorem replace_fixed_effects_cols_spec (df : SummTable)
    (hrows : 4 ≤ df.rows.length)
    (hcols : df.columns.length = 3)
    (hfree : (df.rows.drop 4).all (fun r => !(r.1 == "Ratio Size Fixed Effects")) = true) :
    replace_fixed_effects_cols df =
      some { columns := df.columns,
             rows := df.rows.drop 4 ++
               [("Ratio Size Fixed Effects", ["No", "Yes", "No"])] } := by
  have hany : (df.rows.drop 4).any (fun r => r.1 == "Ratio Size Fixed Effects") = false := by
    rw [List.any_eq_false]
    intro r hr
    have := List.all_eq_true.mp hfree r hr
    simpa using this
  simp [replace_fixed_effects_cols, loc_assign, hcols, hany]

/-- Witness for replace_fixed_effects_cols_spec on a concrete four-row,
three-column summary table with distinct labels. -/
theorem replace_fixed_effects_cols_spec_witness :
    replace_fixed_effects_cols
      { columns := ["(I)", "(II)", "(III)"],
        rows := [("Unemployment", ["0.1", "0.2", "0.3"]),
                 ("ratio_size[T.High]", ["0.4", "0.5", "0.6"]),
                 ("R2", ["0.5", "0.6", "0.7"]),
                 ("N", ["9", "9", "9"])] } =
      some { columns := ["(I)", "(II)", "(III)"],
             rows := [("Ratio Size Fixed Effects", ["No", "Yes", "No"])] } := by
  have h := replace_fixed_effects_cols_spec
    { columns := ["(I)", "(II)", "(III)"],
      rows := [("Unemployment", ["0.1", "0.2", "0.3"]),
               ("ratio_size[T.High]", ["0.4", "0.5", "0.6"]),
               ("R2", ["0.5", "0.6", "0.7"]),
               ("N", ["9", "9", "9"])] }
    (by decide) (by decide) (by decide)
  simpa using h

/-- C1: a complete run of either script (no library call raising) removes
every temporary file it created, leaves the directory as it found it, and in
particular none of the nine files the scripts write survives; assumes the
run starts without those files already present. -/
theorem scripts_remove_every_created_file (s : PState)
    (h1 : memb "temp.csv" s.files = false)
    (h2 : memb "temp.xlsx" s.files = false)
    (h3 : memb "temp.dta" s.files = false)
    (h4 : memb "temp.tex" s.files = false)
    (h5 : memb "My Subfigure.pdf" s.files = false)
    (h6 : memb "cache.zodb" s.files = false)
    (h7 : memb "cache.zodb.index" s.files = false)
    (h8 : memb "cache.zodb.lock" s.files = false)
    (h9 : memb "cache.zodb.tmp" s.files = false) :
    runOps no_raise dmScript s = (s, true) ∧
    (runOps no_raise artScript s).1.files = s.files ∧
    (runOps no_raise artScript s).2 = true ∧
    (writtenNames dmScript ++ writtenNames artScript).all
      (fun n => !memb n (runOps no_raise dmScript s).1.files &&
        !memb n (runOps no_raise artScript s).1.files) = true := by
  have hdm : runOps no_raise dmScript s = (s, true) := by
    simp [dmScript, dmBody, clean_files, runOps, stepOp, no_raise, memb, ins, rm,
      h1, h2, h3, h4]
  have hart : runOps no_raise artScript s =
      ({ files := s.files, cache := ("cache.zodb", ["a", "b"], 5) :: s.cache }, true) := by
    simp [artScript, artBody, artPyexlatex, artMiddle, temp_files_pyexlatex,
      temp_files_objcache, zodbFiles, runOps, stepOp, no_raise, memb, ins, rm,
      h5, h6, h7, h8, h9]
  refine ⟨hdm, by rw [hart], by rw [hart], ?_⟩
  rw [hdm, hart]
  simp [dmScript, dmBody, clean_files, artScript, artBody, artPyexlatex, artMiddle,
    temp_files_pyexlatex, temp_files_objcache, writtenNames, zodbFiles,
    h1, h2, h3, h4, h5, h6, h7, h8, h9]

/-- Witness for scripts_remove_every_created_file: a run from an empty
working directory. -/
theorem scripts_remove_every_created_file_witness :
    runOps no_raise dmScript initialState = (initialState, true) ∧
    (runOps no_raise artScript initialState).1.files = initialState.files ∧
    (runOps no_raise artScript initialState).2 = true ∧
    (writtenNames dmScript ++ writtenNames artScript).all
      (fun n => !memb n (runOps no_raise dmScript initialState).1.files &&
        !memb n (runOps no_raise artScript initialState).1.files) = true :=
  scripts_remove_every_created_file initialState
    rfl rfl rfl rfl rfl rfl rfl rfl rfl

/-- C2 counterexample: additional_research_tools also writes the rendered
figure file My Subfigure.pdf, which is none of the files of the three kinds
the claim enumerates. -/
theorem written_files_include_rendered_figure_pdf :
    "My Subfigure.pdf" ∈ writtenNames artScript ∧
    "My Subfigure.pdf" ∉
      ["temp.csv", "temp.xlsx", "temp.dta", "temp.tex",
       "cache.zodb", "cache.zodb.index", "cache.zodb.lock", "cache.zodb.tmp"] ∧
    fileKind "My Subfigure.pdf" ≠ FileKind.tabularExport ∧
    fileKind "My Subfigure.pdf" ≠ FileKind.typesetSource ∧
    fileKind "My Subfigure.pdf" ≠ FileKind.objectCache := by
  refine ⟨?_, by decide, by decide, by decide, by decide⟩
  decide

/-- C2 amended: the files the scripts write are exactly the three tabular
exports, the one typeset-document source, the four object-cache files, and
one rendered figure PDF; nothing outside those four kinds is written. -/
theorem written_files_exactly_nine_kinds :
    writtenNames dmScript ++ writtenNames artScript =
      ["temp.tex", "temp.csv", "temp.xlsx", "temp.dta", "My Subfigure.pdf",
       "cache.zodb", "cache.zodb.index", "cache.zodb.lock", "cache.zodb.tmp"] ∧
    (writtenNames dmScript ++ writtenNames artScript).map fileKind =
      [.typesetSource, .tabularExport, .tabularExport, .tabularExport,
       .renderedFigure, .objectCache, .objectCache, .objectCache, .objectCache] := by
  constructor
  · decide
  · decide

/-- C3: the demonstrated calls succeed on the inline example data: the
groupby transform over the mixed-type DataFrame, its column assignment, the
Ratio division, sort_ratios applied to the Ratio column and to every value
via applymap, the left merge, the copy manipulations, df.append(copy_df),
and the file reads and removals of both complete script traces all complete
without a raised error. -/
theorem demonstrated_calls_succeed_on_inline_data :
    transform_159.isSome = true ∧
    df_159.isSome = true ∧
    df_167.isSome = true ∧
    df_192.isSome = true ∧
    applymap_195.isSome = true ∧
    df_221.isSome = true ∧
    copy_df_232.isSome = true ∧
    append_233.isSome = true ∧
    (runOps no_raise dmScript initialState).2 = true ∧
    (runOps no_raise artScript initialState).2 = true := by
  refine ⟨?_, ?_, ?_, ?_, ?_, ?_, ?_, ?_, ?_, ?_⟩ <;> decide

/-- Sequential decomposition of a run: executing a concatenation of
statement lists runs the first part, then the second from the reached state,
and stops when the first part fails. -/
theorem runOps_append (raises : Nat → Bool) (xs ys : List Op) (s : PState) :
    runOps raises (xs ++ ys) s =
      (bif (runOps raises xs s).2 then
        runOps raises ys (runOps raises xs s).1
       else runOps raises xs s) := by
  induction xs generalizing s with
  | nil => simp [runOps]
  | cons op rest ih =>
    cases h : stepOp raises op s with
    | none => simp [runOps, h]
    | some s2 => simp [runOps, h, ih s2]

/-- C10: both scripts execute strictly sequentially: for every split point,
the run is the run of the leading statements followed, from the state they
reach, by the run of the remaining statements, the suffix never starting
when the prefix fails; runs are deterministic functions of the starting
state and the raise oracle. -/
theorem scripts_run_sequentially (raises : Nat → Bool) (n : Nat) (s : PState) :
    runOps raises dmScript s =
      (bif (runOps raises (dmScript.take n) s).2 then
        runOps raises (dmScript.drop n) (runOps raises (dmScript.take n) s).1
       else runOps raises (dmScript.take n) s) ∧
    runOps raises artScript s =
      (bif (runOps raises (artScript.take n) s).2 then
        runOps raises (artScript.drop n) (runOps raises (artScript.take n) s).1
       else runOps raises (artScript.take n) s) := by
  constructor
  · conv_lhs => rw [← List.take_append_drop n dmScript]
    exact runOps_append raises _ _ s
  · conv_lhs => rw [← List.take_append_drop n artScript]
    exact runOps_append raises _ _ s

/-- C4: no statement of either script catches, retries or recovers: when the
run of any leading part of a script fails, the whole script run is exactly
that failed run, the raised error propagating to the end unhandled. -/
theorem errors_propagate_unhandled (raises : Nat → Bool) (s : PState) (n : Nat) :
    ((runOps raises (dmScript.take n) s).2 = false →
      runOps raises dmScript s = runOps raises (dmScript.take n) s) ∧
    ((runOps raises (artScript.take n) s).2 = false →
      runOps raises artScript s = runOps raises (artScript.take n) s) := by
  constructor
  · intro h
    conv_lhs => rw [← List.take_append_drop n dmScript]
    rw [runOps_append raises _ _ s, h]
    rfl
  · intro h
    conv_lhs => rw [← List.take_append_drop n artScript]
    rw [runOps_append raises _ _ s, h]
    rfl

/-- Witness for errors_propagate_unhandled: when the first library call of
either script raises, the run fails immediately and nothing later runs. -/
theorem errors_propagate_unhandled_witness :
    (runOps (fun _ => true) (dmScript.take 1) initialState).2 = false ∧
    runOps (fun _ => true) dmScript initialState =
      runOps (fun _ => true) (dmScript.take 1) initialState ∧
    (runOps (fun _ => true) (artScript.take 1) initialState).2 = false ∧
    runOps (fun _ => true) artScript initialState =
      runOps (fun _ => true) (artScript.take 1) initialState := by
  have h1 : (runOps (fun _ => true) (dmScript.take 1) initialState).2 = false := by decide
  have h2 : (runOps (fun _ => true) (artScript.take 1) initialState).2 = false := by decide
  exact ⟨h1, (errors_propagate_unhandled (fun _ => true) initialState 1).1 h1,
    h2, (errors_propagate_unhandled (fun _ => true) initialState 1).2 h2⟩

/-- C5 counterexample: with the regtools regression call of
additional_research_tools lines 476-481 raising, the run fails, yet the
subfigure PDF written earlier had already been removed by the mid-script
cleanup loop of lines 433-434, and stays removed in the failure state; so
deletion does not happen only at the end of the script, and a temporary
file is removed even though a step after that deletion raises. -/
theorem pdf_removed_despite_later_failure :
    (runOps (fun i => i == 19) artScript initialState).2 = false ∧
    "My Subfigure.pdf" ∈ writtenNames artScript ∧
    memb "My Subfigure.pdf"
      (runOps (fun i => i == 19) (artScript.take 12) initialState).1.files = true ∧
    memb "My Subfigure.pdf"
      (runOps (fun i => i == 19) artScript initialState).1.files = false := by
  exact ⟨by decide, by decide, by decide, by decide⟩

/-- C5 amended: each script ends with an os.remove loop over its listed
files; additional_research_tools also runs one mid-script after the
pyexlatex section; each loop removes each listed file unconditionally when
control reaches it, whether or not an earlier step created the file, and no
loop is protected by try or finally: when a step before a loop raises, that
loop does not run and the files it lists are not removed, while loops
already passed stay executed. -/
theorem cleanup_loops_structure_and_skip_on_error :
    dmScript = dmBody ++ clean_files.map Op.remove ∧
    artScript = artPyexlatex ++ temp_files_pyexlatex.map Op.remove ++
      artMiddle ++ temp_files_objcache.map Op.remove ∧
    (∀ (raises : Nat → Bool) (n : String) (s2 : PState),
      stepOp raises (Op.remove n) s2 =
        (bif memb n s2.files then some { s2 with files := rm n s2.files }
         else Option.none)) ∧
    (∀ (raises : Nat → Bool) (s : PState), (runOps raises dmBody s).2 = false →
      runOps raises dmScript s = runOps raises dmBody s) ∧
    (∀ (raises : Nat → Bool) (s : PState), (runOps raises artBody s).2 = false →
      runOps raises artScript s = runOps raises artBody s) := by
  refine ⟨rfl, by decide, fun _ _ _ => rfl, ?_, ?_⟩
  · intro raises s h
    show runOps raises (dmBody ++ clean_files.map Op.remove) s = runOps raises dmBody s
    rw [runOps_append raises _ _ s, h]
    rfl
  · intro raises s h
    show runOps raises (artBody ++ temp_files_objcache.map Op.remove) s =
      runOps raises artBody s
    rw [runOps_append raises _ _ s, h]
    rfl

/-- Witness for cleanup_loops_structure_and_skip_on_error: with every
library call raising, both runs fail in their bodies and no cleanup loop
executes. -/
theorem cleanup_loops_structure_and_skip_on_error_witness :
    runOps (fun _ => true) dmScript initialState =
      runOps (fun _ => true) dmBody initialState ∧
    runOps (fun _ => true) artScript initialState =
      runOps (fun _ => true) artBody initialState := by
  refine ⟨?_, ?_⟩
  · exact cleanup_loops_structure_and_skip_on_error.2.2.2.1 (fun _ => true)
      initialState (by decide)
  · exact cleanup_loops_structure_and_skip_on_error.2.2.2.2 (fun _ => true)
      initialState (by decide)

/-- C6: the value 5 stored through ObjectCache is retrievable by the second
ObjectCache within the same run, its backing files are among the files the
script writes and then deletes before it ends, and after the run the lookup
finds nothing: nothing stored survives the run. -/
theorem cached_object_does_not_survive_run (s : PState)
    (h5 : memb "My Subfigure.pdf" s.files = false)
    (h6 : memb "cache.zodb" s.files = false)
    (h7 : memb "cache.zodb.index" s.files = false)
    (h8 : memb "cache.zodb.lock" s.files = false)
    (h9 : memb "cache.zodb.tmp" s.files = false) :
    cacheGet (runOps no_raise artBody s).1 "cache.zodb" ["a", "b"] = some 5 ∧
    (runOps no_raise artScript s).2 = true ∧
    temp_files_objcache.all
      (fun n => n ∈ writtenNames artScript ∧
        !memb n (runOps no_raise artScript s).1.files) = true ∧
    cacheGet (runOps no_raise artScript s).1 "cache.zodb" ["a", "b"] = Option.none := by
  have hbody : runOps no_raise artBody s =
      ({ files := ["cache.zodb.tmp", "cache.zodb.lock", "cache.zodb.index",
          "cache.zodb"] ++ s.files,
         cache := ("cache.zodb", ["a", "b"], 5) :: s.cache }, true) := by
    simp [artBody, artPyexlatex, artMiddle, temp_files_pyexlatex, zodbFiles,
      runOps, stepOp, no_raise, memb, ins, rm, h5, h6, h7, h8, h9]
  have hfull : runOps no_raise artScript s =
      ({ files := s.files, cache := ("cache.zodb", ["a", "b"], 5) :: s.cache }, true) := by
    simp [artScript, artBody, artPyexlatex, artMiddle, temp_files_pyexlatex,
      temp_files_objcache, zodbFiles, runOps, stepOp, no_raise, memb, ins, rm,
      h5, h6, h7, h8, h9]
  refine ⟨?_, by rw [hfull], ?_, ?_⟩
  · rw [hbody]
    simp [cacheGet, memb, lookupCache]
  · rw [hfull]
    simp [temp_files_objcache, memb, h6, h7, h8, h9]
    decide
  · rw [hfull]
    simp [cacheGet, memb, h6]

/-- Witness for cached_object_does_not_survive_run: a run from an empty
working directory. -/
theorem cached_object_does_not_survive_run_witness :
    cacheGet (runOps no_raise artBody initialState).1 "cache.zodb" ["a", "b"] = some 5 ∧
    (runOps no_raise artScript initialState).2 = true ∧
    temp_files_objcache.all
      (fun n => n ∈ writtenNames artScript ∧
        !memb n (runOps no_raise artScript initialState).1.files) = true ∧
    cacheGet (runOps no_raise artScript initialState).1 "cache.zodb" ["a", "b"] =
      Option.none :=
  cached_object_does_not_survive_run initialState rfl rfl rfl rfl rfl
